import Mathlib

/-!
Shallow embedding of `src/backend/app.py` (a Flask prompt-tiles backend):
the credential/session store (`update_api_key`, `get_api_key_from_session`),
the streaming chat orchestrator (`stream_chat` with its inner `generate`),
and the conversational data model (`UserSession`, `Chat`, `Message`) with
its read-back surface (`get_chats` / `Chat.to_dict`).

The database is modelled as explicit lists in insertion order with
auto-incrementing integer primary keys (SQLite rowid behaviour); time is a
`Nat` supplied explicitly where the code calls `datetime.utcnow()`; the
external generation provider is modelled by explicit parameters (a boolean
for whether the validation call succeeds, a list of text fragments for the
streamed response).  Python truthiness tests (`if not new_key`,
`if chat_id:`, `if ai_response`) are translated as the corresponding
emptiness / zero tests.
-/

namespace PromptTiles

/-- Modelled from the spec: the Cipher Service (§4.1) wraps the external
`cryptography.fernet` library, which is not part of this repository.  A
ciphertext is the payload tagged with the key that produced it; `decrypt`
returns the payload only under the producing key and fails otherwise,
modelling Fernet's authenticated encryption contract (`decrypt` fails if
the ciphertext was not produced by the same key or has been tampered
with). -/
structure Ciphertext where
  tag : Nat
  payload : String
deriving Repr, DecidableEq

/-- `cipher_suite.encrypt` (Fernet): see `Ciphertext`. -/
def encrypt (key : Nat) (plaintext : String) : Ciphertext :=
  ⟨key, plaintext⟩

/-- `cipher_suite.decrypt` (Fernet): succeeds exactly on ciphertexts
produced by the same key; `none` models the raised exception
(`CredentialCorrupt`). -/
def decrypt (key : Nat) (ct : Ciphertext) : Option String :=
  if ct.tag = key then some ct.payload else none

/-- Row of the `user_session` table (`class UserSession`). -/
structure UserSession where
  session_id : String
  encrypted_api_key : Ciphertext
  created_at : Nat
  last_used : Nat
deriving Repr, DecidableEq

/-- Row of the `chat` table (`class Chat`). -/
structure Chat where
  id : Nat
  prompt_id : Nat
  session_id : String
  created_at : Nat
deriving Repr, DecidableEq

/-- Row of the `message` table (`class Message`). -/
structure Message where
  id : Nat
  chat_id : Nat
  role : String
  content : String
  created_at : Nat
deriving Repr, DecidableEq

/-- The SQLite database: each table as a list in insertion order, with the
next auto-increment primary key for the tables the embedded code inserts
into. -/
structure DB where
  sessions : List UserSession
  chats : List Chat
  messages : List Message
  nextChatId : Nat
  nextMessageId : Nat
deriving Repr, DecidableEq

/-- The empty database (`db.create_all()` on a fresh file). -/
def DB.empty : DB :=
  ⟨[], [], [], 1, 1⟩

/-- Result of `POST /settings/api-key` (`update_api_key`). -/
inductive IssueResult where
  /-- `400 {"error": "API key is required"}`. -/
  | missingKey : IssueResult
  /-- `400 {"error": str(e)}` — the provider validation call raised. -/
  | invalidCred : IssueResult
  /-- `200` with the fresh `session_id`. -/
  | ok (session_id : String) : IssueResult
deriving Repr, DecidableEq

/-- `update_api_key` (app.py lines 171–204).  `key` is the process-wide
`ENCRYPTION_KEY`; `validateOk` is whether the provider validation call
(`test_model.generate_content('test')`) succeeds for this credential;
`freshToken` is the value of `secrets.token_urlsafe(32)`; `now` the
current time; `api_key` is `data.get('api_key')` (`none` when absent,
and `if not new_key` also rejects the empty string). -/
def update_api_key (key : Nat) (validateOk : Bool) (freshToken : String)
    (now : Nat) (db : DB) (api_key : Option String) : IssueResult × DB :=
  match api_key with
  | none => (.missingKey, db)
  | some new_key =>
    if new_key = "" then (.missingKey, db)
    else if validateOk then
      (.ok freshToken,
        { db with sessions :=
            db.sessions ++ [⟨freshToken, encrypt key new_key, now, now⟩] })
    else (.invalidCred, db)

/-- Helper: the ORM mutation `session.last_used = datetime.utcnow()`
applied to the row `UserSession.query.filter_by(session_id=sid).first()`
found, i.e. the first row matching `sid`. -/
def setLastUsed (now : Nat) (sid : String) : List UserSession → List UserSession
  | [] => []
  | s :: rest =>
    if s.session_id = sid then { s with last_used := now } :: rest
    else s :: setLastUsed now sid rest

/-- `get_api_key_from_session` (app.py lines 206–222).  Returns the
decrypted credential (or `none` for every failure, as the Python does) and
the database after the call.  Note the source commits the `last_used`
update *before* attempting the decrypt, so a failed decrypt still leaves
the refreshed timestamp behind. -/
def get_api_key_from_session (key : Nat) (now : Nat) (db : DB)
    (session_id : Option String) : Option String × DB :=
  match session_id with
  | none => (none, db)
  | some sid =>
    if sid = "" then (none, db)
    else
      match db.sessions.find? (fun s => s.session_id == sid) with
      | none => (none, db)
      | some s =>
        let db1 : DB := { db with sessions := setLastUsed now sid db.sessions }
        match decrypt key s.encrypted_api_key with
        | some pt => (some pt, db1)
        | none => (none, db1)

/-- The request body and header of `POST /chat/stream`:
`X-Session-ID` header, `data.get('prompt', '')`, `data.get('message', '')`,
`data.get('prompt_id')`, `data.get('chat_id')`. -/
structure ChatRequest where
  session_id : Option String
  prompt : String
  message : String
  prompt_id : Option Nat
  chat_id : Option Nat
deriving Repr, DecidableEq

/-- Python truthiness of an optional integer (`if chat_id:`). -/
def truthyNat : Option Nat → Bool
  | none => false
  | some n => n ≠ 0

/-- `full_prompt = f"{prompt_text}\n\nUser: {user_input}" if prompt_text
else user_input` (app.py line 244). -/
def full_prompt (prompt_text user_input : String) : String :=
  if prompt_text ≠ "" then prompt_text ++ "\n\nUser: " ++ user_input
  else user_input

/-- The "Create or get chat session" block of `stream_chat` (app.py lines
246–253): look up `chat_id` if truthy, else create a new `Chat` under
`prompt_id` if truthy, else no chat. -/
def resolve_chat (now : Nat) (db : DB) (req : ChatRequest) :
    Option Chat × DB :=
  if truthyNat req.chat_id then
    (db.chats.find? (fun c => some c.id == req.chat_id), db)
  else if truthyNat req.prompt_id then
    let c : Chat :=
      ⟨db.nextChatId, req.prompt_id.getD 0, (req.session_id.getD ""), now⟩
    (some c, { db with chats := db.chats ++ [c],
                       nextChatId := db.nextChatId + 1 })
  else (none, db)

/-- Outcome of `POST /chat/stream` once the streamed response has been
fully consumed. -/
inductive StreamResult where
  /-- `401 {"error": "Invalid or expired session. ..."}`. -/
  | unauthorized : StreamResult
  /-- A streamed `text/event-stream` response: `prompt_sent` is the
  argument of the outbound `chat_model.generate_content(full_prompt,
  stream=True)` call, `events` the `data:` fragments relayed to the
  caller, in order. -/
  | streamed (prompt_sent : String) (events : List String) : StreamResult
deriving Repr, DecidableEq

/-- `stream_chat` together with its inner generator `generate` (app.py
lines 224–276), observed after the stream has been fully consumed.
`chunks` is the sequence of `chunk.text` values the provider emits for
the prompt sent; `generate` relays and accumulates only truthy
(non-empty) fragments, and persists one assistant `Message` after the
stream iff a chat was resolved and the accumulator is non-empty. -/
def stream_chat (key : Nat) (now : Nat) (chunks : List String) (db : DB)
    (req : ChatRequest) : StreamResult × DB :=
  let r1 := get_api_key_from_session key now db req.session_id
  match r1.1 with
  | none => (.unauthorized, r1.2)
  | some api_key =>
    if api_key = "" then (.unauthorized, r1.2)
    else
      let fp := full_prompt req.prompt req.message
      let r2 := resolve_chat now r1.2 req
      let db3 : DB :=
        match r2.1 with
        | some c =>
          { r2.2 with
              messages := r2.2.messages ++
                [⟨r2.2.nextMessageId, c.id, "user", req.message, now⟩],
              nextMessageId := r2.2.nextMessageId + 1 }
        | none => r2.2
      let events := chunks.filter (fun t => t ≠ "")
      let ai_response := String.join events
      let db4 : DB :=
        match r2.1 with
        | some c =>
          if ai_response ≠ "" then
            { db3 with
                messages := db3.messages ++
                  [⟨db3.nextMessageId, c.id, "assistant", ai_response, now⟩],
                nextMessageId := db3.nextMessageId + 1 }
          else db3
        | none => db3
      (.streamed fp events, db4)

/-- The nested message list of `Chat.to_dict` (app.py lines 73–79): the
`messages` relationship is the `message` rows with this `chat_id`, read
back in insertion (rowid) order. -/
def chatMessages (db : DB) (cid : Nat) : List Message :=
  db.messages.filter (fun m => m.chat_id == cid)

/-- `get_chats` (app.py lines 166–169): chats of a prompt ordered by
`created_at` descending (stable sort), each with its nested messages from
`Chat.to_dict`. -/
def get_chats (db : DB) (pid : Nat) : List (Chat × List Message) :=
  ((db.chats.filter (fun c => c.prompt_id == pid)).mergeSort
      (fun a b => Nat.ble b.created_at a.created_at)).map
    (fun c => (c, chatMessages db c.id))

/-! ## Helper lemmas -/

/-- `setLastUsed` commutes with looking the session up again: the found
row is the old row with its `last_used` replaced. -/
theorem find?_setLastUsed (now : Nat) (sid : String) (l : List UserSession) :
    (setLastUsed now sid l).find? (fun t => t.session_id == sid) =
      (l.find? (fun t => t.session_id == sid)).map
        (fun s => { s with last_used := now }) := by
  induction l with
  | nil => rfl
  | cons s rest ih =>
    by_cases h : s.session_id = sid
    · simp [setLastUsed, h]
    · simp [setLastUsed, h, ih]

/-- Credential resolution touches only the `user_session` table. -/
theorem get_api_key_from_session_frame (key now : Nat) (db : DB)
    (sid : Option String) :
    ((get_api_key_from_session key now db sid).2).chats = db.chats ∧
    ((get_api_key_from_session key now db sid).2).messages = db.messages ∧
    ((get_api_key_from_session key now db sid).2).nextChatId = db.nextChatId ∧
    ((get_api_key_from_session key now db sid).2).nextMessageId =
      db.nextMessageId := by
  unfold get_api_key_from_session
  cases sid with
  | none => exact ⟨rfl, rfl, rfl, rfl⟩
  | some s =>
    by_cases h : s = ""
    · simp [h]
    · simp only [h, if_neg, ite_false]
      cases db.sessions.find? (fun t => t.session_id == s) with
      | none => exact ⟨rfl, rfl, rfl, rfl⟩
      | some u =>
        simp only
        cases decrypt key u.encrypted_api_key with
        | none => exact ⟨rfl, rfl, rfl, rfl⟩
        | some pt => exact ⟨rfl, rfl, rfl, rfl⟩

/-- Chat resolution touches only the `chat` table. -/
theorem resolve_chat_frame (now : Nat) (db : DB) (req : ChatRequest) :
    ((resolve_chat now db req).2).sessions = db.sessions ∧
    ((resolve_chat now db req).2).messages = db.messages ∧
    ((resolve_chat now db req).2).nextMessageId = db.nextMessageId := by
  unfold resolve_chat
  split
  · exact ⟨rfl, rfl, rfl⟩
  · split
    · exact ⟨rfl, rfl, rfl⟩
    · exact ⟨rfl, rfl, rfl⟩

/-- When chat resolution finds no chat it leaves the database untouched. -/
theorem resolve_chat_none (now : Nat) (db : DB) (req : ChatRequest)
    (h : (resolve_chat now db req).1 = none) :
    (resolve_chat now db req).2 = db := by
  unfold resolve_chat at h ⊢
  split_ifs at h ⊢
  all_goals rfl

/-- With a resolvable non-empty credential, `stream_chat` always answers
with a streamed response whose outbound prompt is `full_prompt` of the
request fields and whose events are the non-empty provider fragments. -/
theorem stream_chat_ok_result (key now : Nat) (chunks : List String)
    (db : DB) (req : ChatRequest) (ak : String)
    (h1 : (get_api_key_from_session key now db req.session_id).1 = some ak)
    (h2 : ak ≠ "") :
    (stream_chat key now chunks db req).1 =
      .streamed (full_prompt req.prompt req.message)
        (chunks.filter (fun t => t ≠ "")) := by
  simp only [stream_chat, h1]
  simp only [h2, ite_false, if_neg]

/-- With a resolvable credential but no resolved chat, `stream_chat`
returns the streamed response and leaves the database exactly as the
credential resolution left it. -/
theorem stream_chat_none_chat (key now : Nat) (chunks : List String)
    (db : DB) (req : ChatRequest) (ak : String)
    (h1 : (get_api_key_from_session key now db req.session_id).1 = some ak)
    (h2 : ak ≠ "")
    (h3 : (resolve_chat now
        (get_api_key_from_session key now db req.session_id).2 req).1 = none) :
    stream_chat key now chunks db req =
      (.streamed (full_prompt req.prompt req.message)
          (chunks.filter (fun t => t ≠ "")),
        (get_api_key_from_session key now db req.session_id).2) := by
  have h4 := resolve_chat_none now
    (get_api_key_from_session key now db req.session_id).2 req h3
  simp only [stream_chat, h1]
  simp only [h2, ite_false, if_neg, h3, h4]

/-- With a resolvable credential and a resolved chat `c`, `stream_chat`
returns the streamed response, and the final database is the one left by
chat resolution with the user message appended and, when the accumulated
response is non-empty, the assistant message appended after it. -/
theorem stream_chat_some_chat (key now : Nat) (chunks : List String)
    (db : DB) (req : ChatRequest) (ak : String) (c : Chat)
    (h1 : (get_api_key_from_session key now db req.session_id).1 = some ak)
    (h2 : ak ≠ "")
    (h3 : (resolve_chat now
        (get_api_key_from_session key now db req.session_id).2 req).1 =
      some c) :
    stream_chat key now chunks db req =
      (.streamed (full_prompt req.prompt req.message)
          (chunks.filter (fun t => t ≠ "")),
        if String.join (chunks.filter (fun t => t ≠ "")) ≠ "" then
          { (resolve_chat now
              (get_api_key_from_session key now db req.session_id).2 req).2 with
            messages := (resolve_chat now
                (get_api_key_from_session key now db req.session_id).2
                req).2.messages ++
              [⟨(resolve_chat now
                  (get_api_key_from_session key now db req.session_id).2
                  req).2.nextMessageId, c.id, "user", req.message, now⟩,
               ⟨(resolve_chat now
                  (get_api_key_from_session key now db req.session_id).2
                  req).2.nextMessageId + 1, c.id, "assistant",
                  String.join (chunks.filter (fun t => t ≠ "")), now⟩],
            nextMessageId := (resolve_chat now
                (get_api_key_from_session key now db req.session_id).2
                req).2.nextMessageId + 2 }
        else
          { (resolve_chat now
              (get_api_key_from_session key now db req.session_id).2 req).2 with
            messages := (resolve_chat now
                (get_api_key_from_session key now db req.session_id).2
                req).2.messages ++
              [⟨(resolve_chat now
                  (get_api_key_from_session key now db req.session_id).2
                  req).2.nextMessageId, c.id, "user", req.message, now⟩],
            nextMessageId := (resolve_chat now
                (get_api_key_from_session key now db req.session_id).2
                req).2.nextMessageId + 1 }) := by
  simp only [stream_chat, h1]
  simp only [h2, ite_false, if_neg, h3]
  split
  · simp [Nat.add_assoc]
  · simp

/-- One chat request only ever appends messages, and every appended
message is stamped with the request's current time. -/
theorem stream_chat_messages_append (key now : Nat) (chunks : List String)
    (db : DB) (req : ChatRequest) :
    ∃ t, (stream_chat key now chunks db req).2.messages = db.messages ++ t ∧
      ∀ m ∈ t, m.created_at = now := by
  obtain ⟨_, hm1, _, _⟩ := get_api_key_from_session_frame key now db req.session_id
  rcases h1 : (get_api_key_from_session key now db req.session_id).1 with _ | ak
  · refine ⟨[], ?_, by simp⟩
    simp only [stream_chat, h1]
    simp [hm1]
  · by_cases h2 : ak = ""
    · refine ⟨[], ?_, by simp⟩
      simp only [stream_chat, h1]
      simp [h2, hm1]
    · obtain ⟨_, hm2, _⟩ := resolve_chat_frame now
        (get_api_key_from_session key now db req.session_id).2 req
      rcases h3 : (resolve_chat now
          (get_api_key_from_session key now db req.session_id).2 req).1 with _ | c
      · have h4 := stream_chat_none_chat key now chunks db req ak h1 h2 h3
        refine ⟨[], ?_, by simp⟩
        rw [h4]
        simp [hm1]
      · have h4 := stream_chat_some_chat key now chunks db req ak c h1 h2 h3
        by_cases h5 : String.join (chunks.filter (fun t => t ≠ "")) = ""
        · refine ⟨[⟨(resolve_chat now
              (get_api_key_from_session key now db req.session_id).2
              req).2.nextMessageId, c.id, "user", req.message, now⟩],
            ?_, by simp⟩
          rw [h4]
          simp only [ne_eq, decide_not] at h5
          simp [h5, hm2, hm1]
        · refine ⟨[⟨(resolve_chat now
              (get_api_key_from_session key now db req.session_id).2
              req).2.nextMessageId, c.id, "user", req.message, now⟩,
            ⟨(resolve_chat now
              (get_api_key_from_session key now db req.session_id).2
              req).2.nextMessageId + 1, c.id, "assistant",
              String.join (chunks.filter (fun t => t ≠ "")), now⟩],
            ?_, by simp⟩
          rw [h4]
          simp only [ne_eq, decide_not] at h5
          simp [h5, hm2, hm1]

/-! ## Claims -/

/-- C1: for every raw credential accepted by the external provider,
issuing a session (`update_api_key`) and then resolving the returned
session token (`get_api_key_from_session`) yields exactly the original
plaintext credential — encryption at issuance followed by decryption at
resolution is a round-trip identity.  (The credential is non-empty since
`update_api_key` only reaches the provider for truthy keys, and the
generated token is fresh: the `session_id` column is `unique`.) -/
theorem issue_then_resolve_roundtrip (key now now2 : Nat)
    (cred token : String) (db : DB) (hcred : cred ≠ "") (htok : token ≠ "")
    (hfresh : ∀ s ∈ db.sessions, s.session_id ≠ token) :
    (update_api_key key true token now db (some cred)).1 = .ok token ∧
    (get_api_key_from_session key now2
        (update_api_key key true token now db (some cred)).2 (some token)).1 =
      some cred := by
  have hdb2 : (update_api_key key true token now db (some cred)).2 =
      { db with sessions :=
          db.sessions ++ [⟨token, encrypt key cred, now, now⟩] } := by
    simp [update_api_key, hcred]
  refine ⟨by simp [update_api_key, hcred], ?_⟩
  rw [hdb2]
  have hnone : db.sessions.find? (fun t => t.session_id == token) = none := by
    rw [List.find?_eq_none]
    intro x hx
    simpa using hfresh x hx
  simp [get_api_key_from_session, htok, List.find?_append, hnone, decrypt,
    encrypt]

/-- Witness for C1 at a concrete credential, token and empty store. -/
theorem issue_then_resolve_roundtrip_witness :
    (("sk" : String) ≠ "" ∧ ("tok" : String) ≠ "" ∧
      ∀ s ∈ (DB.empty).sessions, s.session_id ≠ "tok") ∧
    ((update_api_key 7 true "tok" 3 DB.empty (some "sk")).1 = .ok "tok" ∧
      (get_api_key_from_session 7 9
          (update_api_key 7 true "tok" 3 DB.empty (some "sk")).2
          (some "tok")).1 = some "sk") :=
  ⟨⟨by decide, by decide, by simp [DB.empty]⟩,
    issue_then_resolve_roundtrip 7 3 9 "sk" "tok" DB.empty (by decide)
      (by decide) (by simp [DB.empty])⟩

/-- C7: when the provider validation call fails (raises), `update_api_key`
answers with the error response and the database — in particular the
session store — is completely unchanged. -/
theorem issue_invalid_credential_no_session (key : Nat) (tok : String)
    (now : Nat) (db : DB) (cred : String) (hcred : cred ≠ "") :
    update_api_key key false tok now db (some cred) = (.invalidCred, db) := by
  simp [update_api_key, hcred]

/-- Witness for C7 at a concrete rejected credential. -/
theorem issue_invalid_credential_no_session_witness :
    (("bad" : String) ≠ "") ∧
    update_api_key 7 false "tok" 3 DB.empty (some "bad") =
      (.invalidCred, DB.empty) :=
  ⟨by decide,
    issue_invalid_credential_no_session 7 "tok" 3 DB.empty "bad" (by decide)⟩

/-- C4 counterexample: a stored session whose ciphertext does not decrypt
under the process key (tag 999 vs key 7).  `get_api_key_from_session`
fails (returns `none`), yet the stored record is *not* left unchanged:
its `last_used` timestamp has been refreshed, because the source commits
the `last_used` update before attempting the decrypt. -/
theorem resolve_corrupt_still_mutates_cex :
    (get_api_key_from_session 7 5
        ⟨[⟨"tok", ⟨999, "sk"⟩, 0, 0⟩], [], [], 1, 1⟩ (some "tok")).1 =
      none ∧
    (get_api_key_from_session 7 5
        ⟨[⟨"tok", ⟨999, "sk"⟩, 0, 0⟩], [], [], 1, 1⟩ (some "tok")).2 =
      ⟨[⟨"tok", ⟨999, "sk"⟩, 0, 5⟩], [], [], 1, 1⟩ ∧
    (⟨[⟨"tok", ⟨999, "sk"⟩, 0, 5⟩], [], [], 1, 1⟩ : DB) ≠
      ⟨[⟨"tok", ⟨999, "sk"⟩, 0, 0⟩], [], [], 1, 1⟩ := by
  refine ⟨rfl, rfl, by decide⟩

/-- C4 amended: whenever resolve finds the session record, it refreshes
`last_used` to the current time *before* attempting the decrypt, so even
when the stored ciphertext does not decrypt (resolve returns the failure
value) the record's `last_used` has been updated; the record is left
unchanged only when the lookup itself fails. -/
theorem resolve_refreshes_last_used_even_on_corrupt (key now : Nat)
    (db : DB) (sid : String) (s : UserSession) (hsid : sid ≠ "")
    (hfind : db.sessions.find? (fun t => t.session_id == sid) = some s)
    (hbad : decrypt key s.encrypted_api_key = none) :
    (get_api_key_from_session key now db (some sid)).1 = none ∧
    ((get_api_key_from_session key now db (some sid)).2).sessions.find?
        (fun t => t.session_id == sid) =
      some { s with last_used := now } := by
  constructor
  · simp [get_api_key_from_session, hsid, hfind, hbad]
  · simp [get_api_key_from_session, hsid, hfind, hbad, find?_setLastUsed]

/-- Witness for the amended C4 at the concrete corrupt store. -/
theorem resolve_refreshes_last_used_even_on_corrupt_witness :
    (("tok" : String) ≠ "" ∧
      (⟨[⟨"tok", ⟨999, "sk"⟩, 0, 0⟩], [], [], 1, 1⟩ : DB).sessions.find?
          (fun t => t.session_id == "tok") =
        some ⟨"tok", ⟨999, "sk"⟩, 0, 0⟩ ∧
      decrypt 7 (⟨999, "sk"⟩ : Ciphertext) = none) ∧
    ((get_api_key_from_session 7 5
        ⟨[⟨"tok", ⟨999, "sk"⟩, 0, 0⟩], [], [], 1, 1⟩ (some "tok")).1 = none ∧
      ((get_api_key_from_session 7 5
          ⟨[⟨"tok", ⟨999, "sk"⟩, 0, 0⟩], [], [], 1, 1⟩
          (some "tok")).2).sessions.find? (fun t => t.session_id == "tok") =
        some ⟨"tok", ⟨999, "sk"⟩, 0, 5⟩) :=
  ⟨⟨by decide, by decide, by decide⟩,
    resolve_refreshes_last_used_even_on_corrupt 7 5
      ⟨[⟨"tok", ⟨999, "sk"⟩, 0, 0⟩], [], [], 1, 1⟩ "tok"
      ⟨"tok", ⟨999, "sk"⟩, 0, 0⟩ (by decide) (by decide) (by decide)⟩

/-- C2 counterexample: a chat stream request with an empty user message,
a valid session and a prompt identifier.  The request is *not* rejected:
it answers with a normal streamed response, a new `Chat` is created, an
empty-content user `Message` is persisted and the provider is called —
`stream_chat` contains no emptiness check on the message at all. -/
theorem empty_message_not_rejected_cex :
    (stream_chat 7 5 ["hi"]
        ⟨[⟨"tok", ⟨7, "sk"⟩, 0, 0⟩], [], [], 1, 1⟩
        ⟨some "tok", "", "", some 1, none⟩).1 =
      .streamed "" ["hi"] ∧
    (stream_chat 7 5 ["hi"]
        ⟨[⟨"tok", ⟨7, "sk"⟩, 0, 0⟩], [], [], 1, 1⟩
        ⟨some "tok", "", "", some 1, none⟩).2.chats =
      [⟨1, 1, "tok", 5⟩] ∧
    (stream_chat 7 5 ["hi"]
        ⟨[⟨"tok", ⟨7, "sk"⟩, 0, 0⟩], [], [], 1, 1⟩
        ⟨some "tok", "", "", some 1, none⟩).2.messages =
      [⟨1, 1, "user", "", 5⟩, ⟨2, 1, "assistant", "hi", 5⟩] := by
  refine ⟨rfl, rfl, rfl⟩

/-- C2 amended: an empty user message is not rejected; with a resolvable
non-empty credential the request proceeds exactly like any other turn and
the caller receives the normal streamed response built from the provider's
fragments (the empty message is simply embedded in the outbound prompt). -/
theorem stream_chat_empty_message_proceeds (key now : Nat)
    (chunks : List String) (db : DB) (req : ChatRequest) (ak : String)
    (h1 : (get_api_key_from_session key now db req.session_id).1 = some ak)
    (h2 : ak ≠ "") (hmsg : req.message = "") :
    (stream_chat key now chunks db req).1 =
      .streamed (full_prompt req.prompt "")
        (chunks.filter (fun t => t ≠ "")) := by
  have h4 := stream_chat_ok_result key now chunks db req ak h1 h2
  rw [hmsg] at h4
  exact h4

/-- Witness for the amended C2 at a concrete empty-message request. -/
theorem stream_chat_empty_message_proceeds_witness :
    ((get_api_key_from_session 7 5
        ⟨[⟨"tok", ⟨7, "sk"⟩, 0, 0⟩], [], [], 1, 1⟩
        (ChatRequest.mk (some "tok") "" "" (some 1) none).session_id).1 =
      some "sk" ∧ ("sk" : String) ≠ "" ∧
      (ChatRequest.mk (some "tok") "" "" (some 1) none).message = "") ∧
    (stream_chat 7 5 ["hi"]
        ⟨[⟨"tok", ⟨7, "sk"⟩, 0, 0⟩], [], [], 1, 1⟩
        (ChatRequest.mk (some "tok") "" "" (some 1) none)).1 =
      .streamed (full_prompt "" "") (["hi"].filter (fun t => t ≠ "")) :=
  ⟨⟨by decide, by decide, by decide⟩,
    stream_chat_empty_message_proceeds 7 5 ["hi"]
      ⟨[⟨"tok", ⟨7, "sk"⟩, 0, 0⟩], [], [], 1, 1⟩
      (ChatRequest.mk (some "tok") "" "" (some 1) none) "sk" (by decide)
      (by decide) (by decide)⟩

/-- C3 counterexample: a chat stream request carrying `chat_id = 99` while
the store holds no chats.  The request does *not* fail with a
`ChatNotFound` error: a stream *is* produced (the provider is called and
its fragment relayed), while no `Message` is persisted and no `Chat`
created. -/
theorem unknown_chat_id_still_streams_cex :
    (stream_chat 7 5 ["hi"]
        ⟨[⟨"tok", ⟨7, "sk"⟩, 0, 0⟩], [], [], 1, 1⟩
        ⟨some "tok", "", "m", none, some 99⟩).1 =
      .streamed "m" ["hi"] ∧
    (stream_chat 7 5 ["hi"]
        ⟨[⟨"tok", ⟨7, "sk"⟩, 0, 0⟩], [], [], 1, 1⟩
        ⟨some "tok", "", "m", none, some 99⟩).2.chats = [] ∧
    (stream_chat 7 5 ["hi"]
        ⟨[⟨"tok", ⟨7, "sk"⟩, 0, 0⟩], [], [], 1, 1⟩
        ⟨some "tok", "", "m", none, some 99⟩).2.messages = [] := by
  refine ⟨rfl, rfl, rfl⟩

/-- C3 amended: a chat identifier matching no existing `Chat` does not
fail — the provider is still called and its response streamed to the
caller — but no `Chat` is created and no `Message` is persisted. -/
theorem stream_chat_unknown_chat_id (key now : Nat) (chunks : List String)
    (db : DB) (req : ChatRequest) (ak : String)
    (h1 : (get_api_key_from_session key now db req.session_id).1 = some ak)
    (h2 : ak ≠ "") (hcid : truthyNat req.chat_id = true)
    (hmiss : db.chats.find? (fun c => some c.id == req.chat_id) = none) :
    (stream_chat key now chunks db req).1 =
      .streamed (full_prompt req.prompt req.message)
        (chunks.filter (fun t => t ≠ "")) ∧
    (stream_chat key now chunks db req).2.chats = db.chats ∧
    (stream_chat key now chunks db req).2.messages = db.messages := by
  obtain ⟨hc1, hm1, _, _⟩ := get_api_key_from_session_frame key now db
    req.session_id
  have h3 : (resolve_chat now
      (get_api_key_from_session key now db req.session_id).2 req).1 =
      none := by
    unfold resolve_chat
    rw [if_pos hcid, hc1]
    exact hmiss
  have h4 := stream_chat_none_chat key now chunks db req ak h1 h2 h3
  rw [h4]
  exact ⟨rfl, hc1, hm1⟩

/-- Witness for the amended C3 at the concrete `chat_id = 99` request. -/
theorem stream_chat_unknown_chat_id_witness :
    ((get_api_key_from_session 7 5
        ⟨[⟨"tok", ⟨7, "sk"⟩, 0, 0⟩], [], [], 1, 1⟩
        (ChatRequest.mk (some "tok") "" "m" none (some 99)).session_id).1 =
      some "sk" ∧ ("sk" : String) ≠ "" ∧
      truthyNat (ChatRequest.mk (some "tok") "" "m" none (some 99)).chat_id =
        true ∧
      (⟨[⟨"tok", ⟨7, "sk"⟩, 0, 0⟩], [], [], 1, 1⟩ : DB).chats.find?
          (fun c => some c.id ==
            (ChatRequest.mk (some "tok") "" "m" none (some 99)).chat_id) =
        none) ∧
    ((stream_chat 7 5 ["hi"]
        ⟨[⟨"tok", ⟨7, "sk"⟩, 0, 0⟩], [], [], 1, 1⟩
        (ChatRequest.mk (some "tok") "" "m" none (some 99))).1 =
      .streamed (full_prompt "" "m") (["hi"].filter (fun t => t ≠ "")) ∧
      (stream_chat 7 5 ["hi"]
          ⟨[⟨"tok", ⟨7, "sk"⟩, 0, 0⟩], [], [], 1, 1⟩
          (ChatRequest.mk (some "tok") "" "m" none (some 99))).2.chats =
        (⟨[⟨"tok", ⟨7, "sk"⟩, 0, 0⟩], [], [], 1, 1⟩ : DB).chats ∧
      (stream_chat 7 5 ["hi"]
          ⟨[⟨"tok", ⟨7, "sk"⟩, 0, 0⟩], [], [], 1, 1⟩
          (ChatRequest.mk (some "tok") "" "m" none (some 99))).2.messages =
        (⟨[⟨"tok", ⟨7, "sk"⟩, 0, 0⟩], [], [], 1, 1⟩ : DB).messages) :=
  ⟨⟨by decide, by decide, by decide, by decide⟩,
    stream_chat_unknown_chat_id 7 5 ["hi"]
      ⟨[⟨"tok", ⟨7, "sk"⟩, 0, 0⟩], [], [], 1, 1⟩
      (ChatRequest.mk (some "tok") "" "m" none (some 99)) "sk" (by decide)
      (by decide) (by decide) (by decide)⟩

/-- C8 counterexample: a request that *continues* an existing `Chat`
(`chat_id = 1` is found; no new chat is created) while also supplying a
non-empty prompt text `"T"`.  The prompt sent to the provider is
`"T\n\nUser: m"`, not the bare user message, because the source decides
by the truthiness of the request's prompt field, not by whether a new
chat is started. -/
theorem continued_chat_still_gets_template_cex :
    (stream_chat 7 5 ["x"]
        ⟨[⟨"tok", ⟨7, "sk"⟩, 0, 0⟩], [⟨1, 1, "tok", 0⟩], [], 2, 1⟩
        ⟨some "tok", "T", "m", none, some 1⟩).1 =
      .streamed "T\n\nUser: m" ["x"] ∧
    (stream_chat 7 5 ["x"]
        ⟨[⟨"tok", ⟨7, "sk"⟩, 0, 0⟩], [⟨1, 1, "tok", 0⟩], [], 2, 1⟩
        ⟨some "tok", "T", "m", none, some 1⟩).2.chats =
      [⟨1, 1, "tok", 0⟩] := by
  refine ⟨rfl, rfl⟩

/-- C8 amended: the prompt sent to the provider is a function of the
request fields alone — the supplied prompt text concatenated (as
`"{prompt}\n\nUser: {message}"`) with the user message exactly when the
request carries a non-empty prompt text, and the bare user message
otherwise — independently of whether a new `Chat` is started; in
particular prior `Message` rows are never replayed to the provider. -/
theorem provider_prompt_from_request_fields (key now : Nat)
    (chunks : List String) (db : DB) (req : ChatRequest) (ak : String)
    (h1 : (get_api_key_from_session key now db req.session_id).1 = some ak)
    (h2 : ak ≠ "") :
    (stream_chat key now chunks db req).1 =
      .streamed (full_prompt req.prompt req.message)
        (chunks.filter (fun t => t ≠ "")) ∧
    (req.prompt ≠ "" →
      full_prompt req.prompt req.message =
        req.prompt ++ "\n\nUser: " ++ req.message) ∧
    (req.prompt = "" →
      full_prompt req.prompt req.message = req.message) := by
  refine ⟨stream_chat_ok_result key now chunks db req ak h1 h2, ?_, ?_⟩
  · intro h
    simp [full_prompt, h]
  · intro h
    simp [full_prompt, h]

/-- Witness for the amended C8 at the continued-chat request. -/
theorem provider_prompt_from_request_fields_witness :
    ((get_api_key_from_session 7 5
        ⟨[⟨"tok", ⟨7, "sk"⟩, 0, 0⟩], [⟨1, 1, "tok", 0⟩], [], 2, 1⟩
        (ChatRequest.mk (some "tok") "T" "m" none (some 1)).session_id).1 =
      some "sk" ∧ ("sk" : String) ≠ "") ∧
    ((stream_chat 7 5 ["x"]
        ⟨[⟨"tok", ⟨7, "sk"⟩, 0, 0⟩], [⟨1, 1, "tok", 0⟩], [], 2, 1⟩
        (ChatRequest.mk (some "tok") "T" "m" none (some 1))).1 =
      .streamed (full_prompt "T" "m") (["x"].filter (fun t => t ≠ "")) ∧
      (("T" : String) ≠ "" → full_prompt "T" "m" = "T" ++ "\n\nUser: " ++ "m") ∧
      (("T" : String) = "" → full_prompt "T" "m" = "m")) :=
  ⟨⟨by decide, by decide⟩,
    provider_prompt_from_request_fields 7 5 ["x"]
      ⟨[⟨"tok", ⟨7, "sk"⟩, 0, 0⟩], [⟨1, 1, "tok", 0⟩], [], 2, 1⟩
      (ChatRequest.mk (some "tok") "T" "m" none (some 1)) "sk" (by decide)
      (by decide)⟩

/-- C10: with a valid session but no resolved `Chat` — the supplied chat
identifier matches nothing, or neither identifier is supplied — the
provider is still called (the result carries the outbound prompt) and its
response is still streamed to the caller, while no `Chat` is created and
no `Message` of either role is written. -/
theorem stream_chat_no_chat_still_streams (key now : Nat)
    (chunks : List String) (db : DB) (req : ChatRequest) (ak : String)
    (h1 : (get_api_key_from_session key now db req.session_id).1 = some ak)
    (h2 : ak ≠ "")
    (h3 : (resolve_chat now
        (get_api_key_from_session key now db req.session_id).2 req).1 =
      none) :
    (stream_chat key now chunks db req).1 =
      .streamed (full_prompt req.prompt req.message)
        (chunks.filter (fun t => t ≠ "")) ∧
    (stream_chat key now chunks db req).2.chats = db.chats ∧
    (stream_chat key now chunks db req).2.messages = db.messages := by
  obtain ⟨hc1, hm1, _, _⟩ := get_api_key_from_session_frame key now db
    req.session_id
  have h4 := stream_chat_none_chat key now chunks db req ak h1 h2 h3
  rw [h4]
  exact ⟨rfl, hc1, hm1⟩

/-- Witness for C10 at a request supplying neither identifier. -/
theorem stream_chat_no_chat_still_streams_witness :
    ((get_api_key_from_session 7 5
        ⟨[⟨"tok", ⟨7, "sk"⟩, 0, 0⟩], [], [], 1, 1⟩
        (ChatRequest.mk (some "tok") "" "m" none none).session_id).1 =
      some "sk" ∧ ("sk" : String) ≠ "" ∧
      (resolve_chat 5
          (get_api_key_from_session 7 5
            ⟨[⟨"tok", ⟨7, "sk"⟩, 0, 0⟩], [], [], 1, 1⟩
            (ChatRequest.mk (some "tok") "" "m" none none).session_id).2
          (ChatRequest.mk (some "tok") "" "m" none none)).1 = none) ∧
    ((stream_chat 7 5 ["hi"]
        ⟨[⟨"tok", ⟨7, "sk"⟩, 0, 0⟩], [], [], 1, 1⟩
        (ChatRequest.mk (some "tok") "" "m" none none)).1 =
      .streamed (full_prompt "" "m") (["hi"].filter (fun t => t ≠ "")) ∧
      (stream_chat 7 5 ["hi"]
          ⟨[⟨"tok", ⟨7, "sk"⟩, 0, 0⟩], [], [], 1, 1⟩
          (ChatRequest.mk (some "tok") "" "m" none none)).2.chats =
        (⟨[⟨"tok", ⟨7, "sk"⟩, 0, 0⟩], [], [], 1, 1⟩ : DB).chats ∧
      (stream_chat 7 5 ["hi"]
          ⟨[⟨"tok", ⟨7, "sk"⟩, 0, 0⟩], [], [], 1, 1⟩
          (ChatRequest.mk (some "tok") "" "m" none none)).2.messages =
        (⟨[⟨"tok", ⟨7, "sk"⟩, 0, 0⟩], [], [], 1, 1⟩ : DB).messages) :=
  ⟨⟨by decide, by decide, by decide⟩,
    stream_chat_no_chat_still_streams 7 5 ["hi"]
      ⟨[⟨"tok", ⟨7, "sk"⟩, 0, 0⟩], [], [], 1, 1⟩
      (ChatRequest.mk (some "tok") "" "m" none none) "sk" (by decide)
      (by decide) (by decide)⟩

/-- C5: against a resolved (existing or newly created) chat `c`, when the
provider emits exactly the fragments `["Hel", "lo"]` the caller receives
exactly those two events in that order, and the transcript afterwards is
the previous one extended by the user message and exactly one assistant
`Message` with content `"Hello"` on that chat. -/
theorem stream_chat_hel_lo_relays_and_persists (key now : Nat) (db : DB)
    (req : ChatRequest) (ak : String) (c : Chat)
    (h1 : (get_api_key_from_session key now db req.session_id).1 = some ak)
    (h2 : ak ≠ "")
    (h3 : (resolve_chat now
        (get_api_key_from_session key now db req.session_id).2 req).1 =
      some c) :
    (stream_chat key now ["Hel", "lo"] db req).1 =
      .streamed (full_prompt req.prompt req.message) ["Hel", "lo"] ∧
    (stream_chat key now ["Hel", "lo"] db req).2.messages =
      db.messages ++
        [⟨db.nextMessageId, c.id, "user", req.message, now⟩,
         ⟨db.nextMessageId + 1, c.id, "assistant", "Hello", now⟩] := by
  obtain ⟨_, hm1, _, hn1⟩ := get_api_key_from_session_frame key now db
    req.session_id
  obtain ⟨_, hm2, hn2⟩ := resolve_chat_frame now
    (get_api_key_from_session key now db req.session_id).2 req
  have h4 := stream_chat_some_chat key now ["Hel", "lo"] db req ak c h1 h2 h3
  have hfil : (["Hel", "lo"] : List String).filter (fun t => t ≠ "") =
      ["Hel", "lo"] := by decide
  have hjoin : String.join ["Hel", "lo"] = "Hello" := by decide
  rw [hfil, hjoin] at h4
  rw [if_pos (by decide : ("Hello" : String) ≠ "")] at h4
  rw [h4]
  refine ⟨rfl, ?_⟩
  simp only
  rw [hm2, hn2, hm1, hn1]

/-- Witness for C5 at a concrete request continuing the stored chat 1. -/
theorem stream_chat_hel_lo_relays_and_persists_witness :
    ((get_api_key_from_session 7 5
        ⟨[⟨"tok", ⟨7, "sk"⟩, 0, 0⟩], [⟨1, 1, "tok", 0⟩], [], 2, 1⟩
        (ChatRequest.mk (some "tok") "" "m" none (some 1)).session_id).1 =
      some "sk" ∧ ("sk" : String) ≠ "" ∧
      (resolve_chat 5
          (get_api_key_from_session 7 5
            ⟨[⟨"tok", ⟨7, "sk"⟩, 0, 0⟩], [⟨1, 1, "tok", 0⟩], [], 2, 1⟩
            (ChatRequest.mk (some "tok") "" "m" none (some 1)).session_id).2
          (ChatRequest.mk (some "tok") "" "m" none (some 1))).1 =
        some ⟨1, 1, "tok", 0⟩) ∧
    ((stream_chat 7 5 ["Hel", "lo"]
        ⟨[⟨"tok", ⟨7, "sk"⟩, 0, 0⟩], [⟨1, 1, "tok", 0⟩], [], 2, 1⟩
        (ChatRequest.mk (some "tok") "" "m" none (some 1))).1 =
      .streamed (full_prompt "" "m") ["Hel", "lo"] ∧
      (stream_chat 7 5 ["Hel", "lo"]
          ⟨[⟨"tok", ⟨7, "sk"⟩, 0, 0⟩], [⟨1, 1, "tok", 0⟩], [], 2, 1⟩
          (ChatRequest.mk (some "tok") "" "m" none (some 1))).2.messages =
        (⟨[⟨"tok", ⟨7, "sk"⟩, 0, 0⟩], [⟨1, 1, "tok", 0⟩], [], 2, 1⟩ :
            DB).messages ++
          [⟨1, 1, "user", "m", 5⟩, ⟨1 + 1, 1, "assistant", "Hello", 5⟩]) :=
  ⟨⟨by decide, by decide, by decide⟩,
    stream_chat_hel_lo_relays_and_persists 7 5
      ⟨[⟨"tok", ⟨7, "sk"⟩, 0, 0⟩], [⟨1, 1, "tok", 0⟩], [], 2, 1⟩
      (ChatRequest.mk (some "tok") "" "m" none (some 1)) "sk"
      ⟨1, 1, "tok", 0⟩ (by decide) (by decide) (by decide)⟩

/-- C6: against a resolved chat `c`, when the provider stream yields zero
chunks the caller gets a normal (non-error) streamed response with zero
events, and the transcript afterwards is the previous one extended by
exactly the user `Message` — persisted before the provider call — with no
assistant `Message` for the turn. -/
theorem stream_chat_zero_chunks_user_only (key now : Nat) (db : DB)
    (req : ChatRequest) (ak : String) (c : Chat)
    (h1 : (get_api_key_from_session key now db req.session_id).1 = some ak)
    (h2 : ak ≠ "")
    (h3 : (resolve_chat now
        (get_api_key_from_session key now db req.session_id).2 req).1 =
      some c) :
    (stream_chat key now [] db req).1 =
      .streamed (full_prompt req.prompt req.message) [] ∧
    (stream_chat key now [] db req).2.messages =
      db.messages ++ [⟨db.nextMessageId, c.id, "user", req.message, now⟩] := by
  obtain ⟨_, hm1, _, hn1⟩ := get_api_key_from_session_frame key now db
    req.session_id
  obtain ⟨_, hm2, hn2⟩ := resolve_chat_frame now
    (get_api_key_from_session key now db req.session_id).2 req
  have h4 := stream_chat_some_chat key now [] db req ak c h1 h2 h3
  have hjoin : String.join (([] : List String).filter (fun t => t ≠ "")) =
      "" := by decide
  rw [hjoin] at h4
  rw [if_neg (by decide : ¬ (("" : String) ≠ ""))] at h4
  rw [h4]
  refine ⟨rfl, ?_⟩
  simp only
  rw [hm2, hn2, hm1, hn1]

/-- Witness for C6 at a concrete request continuing the stored chat 1. -/
theorem stream_chat_zero_chunks_user_only_witness :
    ((get_api_key_from_session 7 5
        ⟨[⟨"tok", ⟨7, "sk"⟩, 0, 0⟩], [⟨1, 1, "tok", 0⟩], [], 2, 1⟩
        (ChatRequest.mk (some "tok") "" "m" none (some 1)).session_id).1 =
      some "sk" ∧ ("sk" : String) ≠ "" ∧
      (resolve_chat 5
          (get_api_key_from_session 7 5
            ⟨[⟨"tok", ⟨7, "sk"⟩, 0, 0⟩], [⟨1, 1, "tok", 0⟩], [], 2, 1⟩
            (ChatRequest.mk (some "tok") "" "m" none (some 1)).session_id).2
          (ChatRequest.mk (some "tok") "" "m" none (some 1))).1 =
        some ⟨1, 1, "tok", 0⟩) ∧
    ((stream_chat 7 5 []
        ⟨[⟨"tok", ⟨7, "sk"⟩, 0, 0⟩], [⟨1, 1, "tok", 0⟩], [], 2, 1⟩
        (ChatRequest.mk (some "tok") "" "m" none (some 1))).1 =
      .streamed (full_prompt "" "m") [] ∧
      (stream_chat 7 5 []
          ⟨[⟨"tok", ⟨7, "sk"⟩, 0, 0⟩], [⟨1, 1, "tok", 0⟩], [], 2, 1⟩
          (ChatRequest.mk (some "tok") "" "m" none (some 1))).2.messages =
        (⟨[⟨"tok", ⟨7, "sk"⟩, 0, 0⟩], [⟨1, 1, "tok", 0⟩], [], 2, 1⟩ :
            DB).messages ++ [⟨1, 1, "user", "m", 5⟩]) :=
  ⟨⟨by decide, by decide, by decide⟩,
    stream_chat_zero_chunks_user_only 7 5
      ⟨[⟨"tok", ⟨7, "sk"⟩, 0, 0⟩], [⟨1, 1, "tok", 0⟩], [], 2, 1⟩
      (ChatRequest.mk (some "tok") "" "m" none (some 1)) "sk"
      ⟨1, 1, "tok", 0⟩ (by decide) (by decide) (by decide)⟩

/-- C9: provided every already-stored message is no newer than the
current time (the clock does not run backwards), a chat request preserves
the transcript invariant — all messages are stamped at most `now` and the
global message table is in non-decreasing creation-time order — and every
per-chat message list read back through `get_chats` / `Chat.to_dict` is in
non-decreasing creation-time order and extends the chat's previous list
only at the end, i.e. matches append order, oldest first. -/
theorem chat_messages_ordered_after_stream (key now : Nat)
    (chunks : List String) (db : DB) (req : ChatRequest)
    (hle : ∀ m ∈ db.messages, m.created_at ≤ now)
    (hs : db.messages.Pairwise (fun a b => a.created_at ≤ b.created_at)) :
    (∀ m ∈ (stream_chat key now chunks db req).2.messages,
      m.created_at ≤ now) ∧
    ((stream_chat key now chunks db req).2.messages.Pairwise
      (fun a b => a.created_at ≤ b.created_at)) ∧
    (∀ pid c msgs,
      (c, msgs) ∈ get_chats (stream_chat key now chunks db req).2 pid →
        msgs.Pairwise (fun a b => a.created_at ≤ b.created_at) ∧
        ∃ t, msgs = chatMessages db c.id ++ t) := by
  obtain ⟨t, ht, htime⟩ := stream_chat_messages_append key now chunks db req
  have hle2 : ∀ m ∈ (stream_chat key now chunks db req).2.messages,
      m.created_at ≤ now := by
    rw [ht]
    intro m hm
    rcases List.mem_append.mp hm with h | h
    · exact hle m h
    · exact le_of_eq (htime m h)
  have hs2 : (stream_chat key now chunks db req).2.messages.Pairwise
      (fun a b => a.created_at ≤ b.created_at) := by
    rw [ht, List.pairwise_append]
    refine ⟨hs, ?_, ?_⟩
    · refine List.pairwise_of_forall_mem_list ?_
      intro a ha b hb
      rw [htime a ha, htime b hb]
    · intro a ha b hb
      rw [htime b hb]
      exact hle a ha
  refine ⟨hle2, hs2, ?_⟩
  intro pid c msgs hmem
  unfold get_chats at hmem
  obtain ⟨c2, _, heq⟩ := List.mem_map.mp hmem
  obtain ⟨hc, hm⟩ := Prod.mk.inj heq
  subst hc
  subst hm
  constructor
  · exact hs2.filter _
  · refine ⟨t.filter (fun m => m.chat_id == c2.id), ?_⟩
    unfold chatMessages
    rw [ht, List.filter_append]

/-- Witness for C9 at a concrete store holding one older message. -/
theorem chat_messages_ordered_after_stream_witness :
    ((∀ m ∈ (⟨[⟨"tok", ⟨7, "sk"⟩, 0, 0⟩], [⟨1, 1, "tok", 0⟩],
        [⟨1, 1, "user", "a", 3⟩], 2, 2⟩ : DB).messages,
      m.created_at ≤ 5) ∧
      (⟨[⟨"tok", ⟨7, "sk"⟩, 0, 0⟩], [⟨1, 1, "tok", 0⟩],
          [⟨1, 1, "user", "a", 3⟩], 2, 2⟩ : DB).messages.Pairwise
        (fun a b => a.created_at ≤ b.created_at)) ∧
    ((∀ m ∈ (stream_chat 7 5 ["x"]
        ⟨[⟨"tok", ⟨7, "sk"⟩, 0, 0⟩], [⟨1, 1, "tok", 0⟩],
          [⟨1, 1, "user", "a", 3⟩], 2, 2⟩
        (ChatRequest.mk (some "tok") "" "m" none (some 1))).2.messages,
      m.created_at ≤ 5) ∧
      ((stream_chat 7 5 ["x"]
          ⟨[⟨"tok", ⟨7, "sk"⟩, 0, 0⟩], [⟨1, 1, "tok", 0⟩],
            [⟨1, 1, "user", "a", 3⟩], 2, 2⟩
          (ChatRequest.mk (some "tok") "" "m" none (some 1))).2.messages.Pairwise
        (fun a b => a.created_at ≤ b.created_at)) ∧
      (∀ pid c msgs,
        (c, msgs) ∈ get_chats (stream_chat 7 5 ["x"]
            ⟨[⟨"tok", ⟨7, "sk"⟩, 0, 0⟩], [⟨1, 1, "tok", 0⟩],
              [⟨1, 1, "user", "a", 3⟩], 2, 2⟩
            (ChatRequest.mk (some "tok") "" "m" none (some 1))).2 pid →
          msgs.Pairwise (fun a b => a.created_at ≤ b.created_at) ∧
          ∃ t, msgs = chatMessages
            (⟨[⟨"tok", ⟨7, "sk"⟩, 0, 0⟩], [⟨1, 1, "tok", 0⟩],
              [⟨1, 1, "user", "a", 3⟩], 2, 2⟩ : DB) c.id ++ t)) :=
  ⟨⟨by decide, by decide⟩,
    chat_messages_ordered_after_stream 7 5 ["x"]
      ⟨[⟨"tok", ⟨7, "sk"⟩, 0, 0⟩], [⟨1, 1, "tok", 0⟩],
        [⟨1, 1, "user", "a", 3⟩], 2, 2⟩
      (ChatRequest.mk (some "tok") "" "m" none (some 1)) (by decide)
      (by decide)⟩

end PromptTiles
